import Mathlib

/-!
Verification of `container_backup.py` (azure-blob-container-backup).

The script backs up Azure blob containers: for each configured source
container it generates a timestamped destination name, shortens it to the
63-character Azure limit, probes the destination account until the name is
unique, creates the container, and shells out to `azcopy`, logging its
combined output to one file per source container.

This file gives a shallow embedding of the script and proves/refutes the
frozen claims about it.  Each definition mirrors a function or code region
of `container_backup.py`; line numbers in comments refer to that file.
-/

namespace ContainerBackup

/-- Maximum number of characters for a container name (line 24). -/
def MAX_CONTAINER_CHARS : Nat := 63

/-- A calendar date-time, the fields of `datetime.datetime` that
`strftime('%Y%m%d-%H%M')` reads. -/
structure DateTime where
  year : Nat
  month : Nat
  day : Nat
  hour : Nat
  minute : Nat
deriving DecidableEq

/-- Zero-pad a numeral to two digits, as `strftime` does for
`%m`, `%d`, `%H`, `%M`. -/
def pad2 (n : Nat) : String :=
  if n < 10 then "0" ++ toString n else toString n

/-- Zero-pad a numeral to four digits, as `strftime` does for `%Y`. -/
def pad4 (n : Nat) : String :=
  if n < 10 then "000" ++ toString n
  else if n < 100 then "00" ++ toString n
  else if n < 1000 then "0" ++ toString n
  else toString n

/-- `datetimeobj.strftime('%Y%m%d-%H%M')` (line 78). -/
def strftime_YmdHM (d : DateTime) : String :=
  pad4 d.year ++ pad2 d.month ++ pad2 d.day ++ "-" ++ pad2 d.hour ++ pad2 d.minute

/-- `get_blob_container_url` (lines 55-57). -/
def get_blob_container_url (storage_account container : String) : String :=
  "https://" ++ storage_account ++ ".blob.core.windows.net/" ++ container

/-- `generate_destination_container_name` (lines 60-82).  The Python default
argument `datetimeobj=datetime.datetime.today()` is evaluated once, when the
function is defined (module load); the embedding therefore threads a single
`DateTime` value explicitly. -/
def generate_destination_container_name (source_container_name : String)
    (extra_identifier : String) (datetimeobj : DateTime) : String :=
  strftime_YmdHM datetimeobj ++ "-backup-" ++ extra_identifier ++ source_container_name

/-- `shorten_destination_container_name` (lines 85-87): Python's
`container_name[:MAX_CONTAINER_CHARS]`, i.e. the first 63 code points. -/
def shorten_destination_container_name (container_name : String) : String :=
  container_name.take MAX_CONTAINER_CHARS

/-! ## The uniqueness-resolution loop (lines 161-183)

The `while` loop keeps a current candidate name and a retry counter
`count`.  `loopState` is the loop's state after `k` failed existence
checks; `loopStep` is one execution of the loop body (lines 169-183). -/

/-- One execution of the `while` body: build the next candidate from the
current `count` (lines 170-175), then increment `count` (line 183). -/
def loopStep (source_name : String) (ts : DateTime) (s : String × Nat) :
    String × Nat :=
  (shorten_destination_container_name
    (generate_destination_container_name source_name
      ("-" ++ toString s.2 ++ "-") ts),
   s.2 + 1)

/-- The loop state (current candidate, count) after `k` failed existence
checks; state 0 is lines 145-150 and 161. -/
def loopState (source_name : String) (ts : DateTime) : Nat → String × Nat
  | 0 =>
    (shorten_destination_container_name
      (generate_destination_container_name source_name "" ts), 0)
  | k + 1 => loopStep source_name ts (loopState source_name ts k)

/-- The `k`-th candidate name checked against the remote service. -/
def candidate (source_name : String) (ts : DateTime) (k : Nat) : String :=
  (loopState source_name ts k).1

/-- The `while` loop itself, with explicit fuel since the Python loop has no
bound.  Returns the first candidate for which `ex` is `false`, together with
the number of existence checks performed, or `none` if `fuel` checks did not
suffice. -/
def resolveLoop (ex : String → Bool) (source_name : String) (ts : DateTime) :
    String → Nat → Nat → Option (String × Nat)
  | _, _, 0 => none
  | cur, count, fuel + 1 =>
    if ex cur then
      match resolveLoop ex source_name ts
          (shorten_destination_container_name
            (generate_destination_container_name source_name
              ("-" ++ toString count ++ "-") ts))
          (count + 1) fuel with
      | none => none
      | some (nm, k) => some (nm, k + 1)
    else
      some (cur, 1)

/-- Entry to the loop: the initial candidate is the shortened no-disambiguator
name (lines 145-150), `count = 0` (line 161). -/
def resolve_destination_name (ex : String → Bool) (source_name : String)
    (ts : DateTime) (fuel : Nat) : Option (String × Nat) :=
  resolveLoop ex source_name ts
    (shorten_destination_container_name
      (generate_destination_container_name source_name "" ts))
    0 fuel

/-! ## Orchestrator (`main`, lines 90-217)

Configuration mirrors `config.yaml` as read on lines 122-143 and 189-210. -/

/-- One entry of `config['source_containers']`. -/
structure SourceContainer where
  storage_account : String
  container_name : String
  storage_key : String
deriving DecidableEq

/-- `config['destination_storage_account']`. -/
structure DestinationAccount where
  storage_account : String
  storage_key : String
deriving DecidableEq

/-- The YAML configuration document. -/
structure Config where
  destination_storage_account : DestinationAccount
  relative_log_path : String
  source_containers : List SourceContainer
deriving DecidableEq

/-- Observable side effects of a run, in chronological order.

`printed` records the quiet-guarded abort messages of lines 102-105; the
optional `--verbose` narration (lines 96-97, 117-118, 126-127, 163-165,
177-187) goes to stdout only and is not recorded, since no claim concerns
it.  `created` are the names passed to `create_container` that succeeded
(line 189); `invocations` are the argument lists handed to `azcopy`
(lines 198-214, excluding the program name); `logWrites` are the
`(path, contents)` pairs written through `open(logpath, 'w')`
(lines 193-217). -/
structure RunTrace where
  printed : List String
  created : List String
  invocations : List (List String)
  logWrites : List (String × String)
deriving DecidableEq

/-- How the process ended.  `ok`: `main` returned, interpreter exit 0.
`abortedNoAzcopy`: `sys.exit(1)` on line 108.  `crashed`: an unhandled
exception from `create_container` propagated out of `main`; CPython then
exits with status 1.  `fuelExhausted` is a model artifact: the unbounded
`while` loop did not finish within the supplied fuel. -/
inductive RunResult where
  | ok (t : RunTrace)
  | abortedNoAzcopy (t : RunTrace)
  | crashed (t : RunTrace)
  | fuelExhausted (t : RunTrace)
deriving DecidableEq

/-- The process exit status: 0 normal, 1 for `sys.exit(1)` and for an
unhandled exception; `none` when the model ran out of fuel. -/
def RunResult.exitCode : RunResult → Option Nat
  | .ok _ => some 0
  | .abortedNoAzcopy _ => some 1
  | .crashed _ => some 1
  | .fuelExhausted _ => none

/-- The side effects of a result, whatever the outcome. -/
def RunResult.trace : RunResult → RunTrace
  | .ok t => t
  | .abortedNoAzcopy t => t
  | .crashed t => t
  | .fuelExhausted t => t

/-- Concatenate traces chronologically. -/
def RunTrace.append (a b : RunTrace) : RunTrace :=
  ⟨a.printed ++ b.printed, a.created ++ b.created,
   a.invocations ++ b.invocations, a.logWrites ++ b.logWrites⟩

/-- Prefix the effects `d` (of one loop iteration) onto a later result. -/
def RunResult.prependTrace (d : RunTrace) : RunResult → RunResult
  | .ok t => .ok (d.append t)
  | .abortedNoAzcopy t => .abortedNoAzcopy (d.append t)
  | .crashed t => .crashed (d.append t)
  | .fuelExhausted t => .fuelExhausted (d.append t)

/-- The empty trace. -/
def RunTrace.nil : RunTrace := ⟨[], [], [], []⟩

/-- The argument list passed to `azcopy` (lines 198-214, after the program
name).  NOTE: this transcribes the source faithfully, including that line
204 puts the destination account's key after `--source-key` and line 210
puts the source container's key after `--dest-key`. -/
def azcopy_args (cfg : Config) (sc : SourceContainer)
    (destination_container_name_tiny : String) : List String :=
  ["--source",
   get_blob_container_url sc.storage_account sc.container_name,
   "--source-key",
   cfg.destination_storage_account.storage_key,
   "--destination",
   get_blob_container_url cfg.destination_storage_account.storage_account
     destination_container_name_tiny,
   "--dest-key",
   sc.storage_key,
   "--recursive",
   "--quiet",
   "--verbose"]

/-- `logpath` (lines 193-194): `os.path.join(log_directory_path,
destination_container_name + '-log.txt')`, where
`destination_container_name` is the untruncated no-disambiguator name from
line 145.  `os.path.join` is modelled as slash concatenation (neither
argument is absolute in the modelled runs). -/
def logPath (log_directory_path : String) (ts : DateTime)
    (container_name : String) : String :=
  log_directory_path ++ "/"
    ++ generate_destination_container_name container_name "" ts ++ "-log.txt"

/-- The `for source_container in config['source_containers']` loop
(lines 143-217).  `remote` is the set of container names existing in the
destination account, which grows as containers are created;
`createFails n` says whether `create_container(n)` raises.  `copyOutput`
gives the combined stdout+stderr the `azcopy` subprocess writes to the log
file, as a function of its argument list. -/
def backupLoop (cfg : Config) (log_directory_path : String)
    (createFails : String → Bool) (copyOutput : List String → String)
    (ts : DateTime) (fuel : Nat) :
    List SourceContainer → List String → RunResult
  | [], _ => .ok RunTrace.nil
  | sc :: rest, remote =>
    match resolve_destination_name (fun n => remote.contains n)
        sc.container_name ts fuel with
    | none => .fuelExhausted RunTrace.nil
    | some (finalName, _checks) =>
      if createFails finalName then
        -- create_container raised: the exception is not caught anywhere
        -- in main, so the run ends here.
        .crashed RunTrace.nil
      else
        RunResult.prependTrace
          ⟨[], [finalName],
           [azcopy_args cfg sc finalName],
           [(logPath log_directory_path ts sc.container_name,
             copyOutput (azcopy_args cfg sc finalName))]⟩
          (backupLoop cfg log_directory_path createFails copyOutput ts fuel
            rest (remote ++ [finalName]))

/-- `main` (lines 90-217).  `quiet` and `verbose` are the CLI flags;
`azcopyAvailable` is whether `type azcopy` succeeds (line 99);
`script_directory_path` is the directory of the script (line 114);
`initialRemote` the containers existing in the destination account when the
run starts; `ts` the single `datetime.datetime.today()` value captured when
the module was loaded (default argument of
`generate_destination_container_name`). -/
def runBackup (quiet _verbose azcopyAvailable : Bool)
    (script_directory_path : String) (cfg : Config)
    (initialRemote : List String) (createFails : String → Bool)
    (copyOutput : List String → String) (ts : DateTime) (fuel : Nat) :
    RunResult :=
  if azcopyAvailable then
    backupLoop cfg (script_directory_path ++ "/" ++ cfg.relative_log_path)
      createFails copyOutput ts fuel cfg.source_containers initialRemote
  else
    .abortedNoAzcopy
      ⟨if quiet then [] else ["azcopy not found", "Aborting"], [], [], []⟩

/-- The contents a file holds after all writes of the run: each
`open(path, 'w')` truncates, so the last write to a path wins. -/
def finalLog (writes : List (String × String)) (path : String) :
    Option String :=
  ((writes.filter (fun w => w.1 == path)).getLast?).map Prod.snd

/-! ## Sample inputs used by concrete scenarios -/

/-- The timestamp 2023-03-01 14:05 used by the spec's scenarios. -/
def sampleTs : DateTime := ⟨2023, 3, 1, 14, 5⟩

/-- A 60-character source name, twenty copies of "-0-", on which truncation
makes distinct disambiguated candidates coincide. -/
def pathologicalName : String := String.join (List.replicate 20 "-0-")

/-- The shortened no-disambiguator candidate for `pathologicalName`; the
shortened retry candidate with disambiguator "-0-" is the same string. -/
def collidingName : String :=
  shorten_destination_container_name
    (generate_destination_container_name pathologicalName "" sampleTs)

/-! ## Lemmas about the uniqueness-resolution loop -/

/-- The loop's retry counter after `k` failed checks is `k`. -/
theorem loopState_snd (name : String) (ts : DateTime) :
    ∀ k, (loopState name ts k).2 = k := by
  intro k
  induction k with
  | zero => rfl
  | succ k ih => simp [loopState, loopStep, ih]

/-- The initial candidate is the shortened no-disambiguator name. -/
theorem candidate_zero (name : String) (ts : DateTime) :
    candidate name ts 0
      = shorten_destination_container_name
          (generate_destination_container_name name "" ts) := by
  unfold candidate
  rw [loopState]

/-- The `(n+1)`-th candidate carries disambiguator `"-" ++ n ++ "-"`. -/
theorem candidate_succ (name : String) (ts : DateTime) (n : Nat) :
    candidate name ts (n + 1)
      = shorten_destination_container_name
          (generate_destination_container_name name
            ("-" ++ toString n ++ "-") ts) := by
  unfold candidate
  rw [loopState]
  unfold loopStep
  rw [loopState_snd]

/-- If the predicate holds on candidates `m, …, i-1` and fails on candidate
`i`, the loop started in state `m` stops at candidate `i` after `i - m + 1`
checks, given enough fuel. -/
theorem resolveLoop_reaches (ex : String → Bool) (name : String)
    (ts : DateTime) (i : Nat) (hi : ex (candidate name ts i) = false)
    (hbelow : ∀ j, j < i → ex (candidate name ts j) = true) :
    ∀ fuel m, m ≤ i → i - m < fuel →
      resolveLoop ex name ts (candidate name ts m) m fuel
        = some (candidate name ts i, i - m + 1) := by
  intro fuel
  induction fuel with
  | zero => intro m _ h; omega
  | succ f ih =>
    intro m hm hf
    rcases Nat.eq_or_lt_of_le hm with rfl | hlt
    · rw [resolveLoop, hi]
      simp
    · have hex : ex (candidate name ts m) = true := hbelow m hlt
      rw [resolveLoop, hex, ← candidate_succ, ih (m + 1) hlt (by omega)]
      simp
      omega

/-- Any name the loop returns is one of the candidates. -/
theorem resolveLoop_mem (ex : String → Bool) (name : String) (ts : DateTime) :
    ∀ fuel m nm k,
      resolveLoop ex name ts (candidate name ts m) m fuel = some (nm, k) →
      ∃ i, nm = candidate name ts i := by
  intro fuel
  induction fuel with
  | zero => intro m nm k h; simp [resolveLoop] at h
  | succ f ih =>
    intro m nm k h
    rw [resolveLoop] at h
    by_cases hex : ex (candidate name ts m) = true
    · rw [if_pos hex] at h
      rw [← candidate_succ] at h
      cases hrec : resolveLoop ex name ts (candidate name ts (m + 1)) (m + 1) f with
      | none => rw [hrec] at h; cases h
      | some p =>
        rw [hrec] at h
        obtain ⟨nm', k'⟩ := p
        have h1 : nm' = nm := congrArg Prod.fst (Option.some_inj.mp h)
        exact h1 ▸ ih (m + 1) nm' k' hrec
    · rw [if_neg hex] at h
      have h1 : candidate name ts m = nm :=
        congrArg Prod.fst (Option.some_inj.mp h)
      exact ⟨m, h1.symm⟩

/-! ## Lemmas about shortening and the timestamp prefix -/

/-- Shortening a generated name never cuts into the timestamp: the
formatted timestamp stays a prefix of every shortened generated name, as
long as it fits within the length cap. -/
theorem strftime_prefix_shorten_gen (ts : DateTime) (e name : String)
    (hlen : (strftime_YmdHM ts).length ≤ MAX_CONTAINER_CHARS) :
    (strftime_YmdHM ts).data <+:
      (shorten_destination_container_name
        (generate_destination_container_name name e ts)).data := by
  unfold shorten_destination_container_name generate_destination_container_name
  rw [String.data_take]
  simp only [String.data_append]
  rw [List.append_assoc, List.append_assoc]
  rw [List.take_append_eq_append_take]
  have htake : List.take MAX_CONTAINER_CHARS (strftime_YmdHM ts).data
      = (strftime_YmdHM ts).data := List.take_of_length_le hlen
  rw [htake]
  exact List.prefix_append _ _

/-- Every candidate the resolution loop ever checks starts with the
formatted run timestamp. -/
theorem strftime_prefix_candidate (ts : DateTime) (name : String)
    (hlen : (strftime_YmdHM ts).length ≤ MAX_CONTAINER_CHARS) (k : Nat) :
    (strftime_YmdHM ts).data <+: (candidate name ts k).data := by
  cases k with
  | zero => rw [candidate_zero]; exact strftime_prefix_shorten_gen ts "" name hlen
  | succ n =>
    rw [candidate_succ]
    exact strftime_prefix_shorten_gen ts ("-" ++ toString n ++ "-") name hlen

/-! ## Lemmas about the orchestrator -/

/-- Prepending one iteration's trace leaves the exit code unchanged. -/
theorem prependTrace_exitCode (d : RunTrace) (r : RunResult) :
    (RunResult.prependTrace d r).exitCode = r.exitCode := by
  cases r <;> rfl

/-- The trace of a prepended result is the appended trace. -/
theorem prependTrace_trace (d : RunTrace) (r : RunResult) :
    (RunResult.prependTrace d r).trace = d.append r.trace := by
  cases r <;> rfl

/-- A prepended result is `ok` exactly when the underlying result is. -/
theorem prependTrace_eq_ok (d : RunTrace) (r : RunResult) (t : RunTrace)
    (h : RunResult.prependTrace d r = .ok t) :
    ∃ t', r = .ok t' ∧ t = d.append t' := by
  cases r with
  | ok t' => exact ⟨t', rfl, (RunResult.ok.injEq .. ▸ h).symm⟩
  | abortedNoAzcopy t' => cases h
  | crashed t' => cases h
  | fuelExhausted t' => cases h

/-- Inversion of one successful loop iteration: if the run of
`sc :: rest` ends in `ok`, the resolver succeeded, creation succeeded, the
rest ended in `ok`, and the trace decomposes accordingly. -/
theorem backupLoop_cons_ok {cfg : Config} {logDir : String}
    {cf : String → Bool} {co : List String → String} {ts : DateTime}
    {fuel : Nat} {sc : SourceContainer} {rest : List SourceContainer}
    {remote : List String} {t : RunTrace}
    (h : backupLoop cfg logDir cf co ts fuel (sc :: rest) remote = .ok t) :
    ∃ nm k t',
      resolve_destination_name (fun n => remote.contains n)
          sc.container_name ts fuel = some (nm, k)
      ∧ cf nm = false
      ∧ backupLoop cfg logDir cf co ts fuel rest (remote ++ [nm]) = .ok t'
      ∧ t = RunTrace.append
          ⟨[], [nm], [azcopy_args cfg sc nm],
           [(logPath logDir ts sc.container_name,
             co (azcopy_args cfg sc nm))]⟩ t' := by
  rw [backupLoop] at h
  cases hres : resolve_destination_name (fun n => remote.contains n)
      sc.container_name ts fuel with
  | none => simp only [hres] at h; cases h
  | some p =>
    obtain ⟨nm, k⟩ := p
    simp only [hres] at h
    by_cases hcf : cf nm = true
    · rw [if_pos hcf] at h; cases h
    · rw [if_neg hcf] at h
      obtain ⟨t', hrec, ht⟩ := prependTrace_eq_ok _ _ _ h
      exact ⟨nm, k, t', rfl, Bool.not_eq_true _ ▸ hcf, hrec, ht⟩

/-- In a successful run, the log paths, in order, are exactly the
per-container paths built from the untruncated no-disambiguator name. -/
theorem backupLoop_ok_logWrites (cfg : Config) (logDir : String)
    (cf : String → Bool) (co : List String → String) (ts : DateTime)
    (fuel : Nat) :
    ∀ l remote t, backupLoop cfg logDir cf co ts fuel l remote = .ok t →
      t.logWrites.map Prod.fst
        = l.map (fun sc => logPath logDir ts sc.container_name) := by
  intro l
  induction l with
  | nil =>
    intro remote t h
    rw [backupLoop] at h
    cases h
    rfl
  | cons sc rest ih =>
    intro remote t h
    obtain ⟨nm, k, t', hres, hcf, hrec, rfl⟩ := backupLoop_cons_ok h
    simp [RunTrace.append, ih _ _ hrec]

/-- Every name a run creates is one of the resolution candidates of one of
the processed source containers. -/
theorem backupLoop_created (cfg : Config) (logDir : String)
    (cf : String → Bool) (co : List String → String) (ts : DateTime)
    (fuel : Nat) :
    ∀ l remote n,
      n ∈ ((backupLoop cfg logDir cf co ts fuel l remote).trace).created →
      ∃ sc, sc ∈ l ∧ ∃ i, n = candidate sc.container_name ts i := by
  intro l
  induction l with
  | nil =>
    intro remote n hn
    rw [backupLoop] at hn
    cases hn
  | cons sc rest ih =>
    intro remote n hn
    rw [backupLoop] at hn
    cases hres : resolve_destination_name (fun m => remote.contains m)
        sc.container_name ts fuel with
    | none => simp only [hres] at hn; cases hn
    | some p =>
      obtain ⟨nm, k⟩ := p
      simp only [hres] at hn
      by_cases hcf : cf nm = true
      · rw [if_pos hcf] at hn; cases hn
      · rw [if_neg hcf] at hn
        rw [prependTrace_trace] at hn
        simp only [RunTrace.append, List.cons_append, List.nil_append,
          List.mem_cons] at hn
        rcases hn with rfl | hn
        · have hres' : resolveLoop (fun m => remote.contains m)
              sc.container_name ts (candidate sc.container_name ts 0) 0 fuel
              = some (n, k) := by
            rw [candidate_zero]; exact hres
          have : ∃ i, n = candidate sc.container_name ts i :=
            resolveLoop_mem _ sc.container_name ts fuel 0 n k hres'
          exact ⟨sc, List.mem_cons_self .., this⟩
        · obtain ⟨sc', hsc', hi⟩ := ih _ _ hn
          exact ⟨sc', List.mem_cons_of_mem _ hsc', hi⟩

/-- The exit code of the loop does not depend on what the copy subprocess
writes: its output (and in particular its own exit status) is never
inspected. -/
theorem backupLoop_exitCode_ext (cfg : Config) (logDir : String)
    (cf : String → Bool) (f g : List String → String) (ts : DateTime)
    (fuel : Nat) :
    ∀ l remote,
      (backupLoop cfg logDir cf f ts fuel l remote).exitCode
        = (backupLoop cfg logDir cf g ts fuel l remote).exitCode := by
  intro l
  induction l with
  | nil => intro remote; rfl
  | cons sc rest ih =>
    intro remote
    rw [backupLoop, backupLoop]
    cases hres : resolve_destination_name (fun m => remote.contains m)
        sc.container_name ts fuel with
    | none => simp only [hres]
    | some p =>
      obtain ⟨nm, k⟩ := p
      simp only [hres]
      by_cases hcf : cf nm = true
      · rw [if_pos hcf, if_pos hcf]
      · rw [if_neg hcf, if_neg hcf, prependTrace_exitCode,
          prependTrace_exitCode, ih]

/-! ## Claim theorems -/

set_option maxRecDepth 100000 in
/-- C8: for every source name, disambiguator, and timestamp, the name
generator returns the timestamp formatted as YYYYMMDD-HHMM, then
"-backup-", then the disambiguator, then the source name; in particular,
generating for "logs" with no disambiguator at 2023-03-01 14:05 yields
"20230301-1405-backup-logs". -/
theorem generator_output_format (name extra : String) (ts : DateTime) :
    generate_destination_container_name name extra ts
      = strftime_YmdHM ts ++ "-backup-" ++ extra ++ name
  ∧ generate_destination_container_name "logs" "" sampleTs
      = "20230301-1405-backup-logs" := by
  exact ⟨rfl, by decide⟩

/-- C9: shortening returns the first 63 characters: the result's length is
`min (length s) 63`, its characters are a prefix of those of `s`, and it is
`s` itself whenever `s` is within bounds; the function is total. -/
theorem shorten_spec (s : String) :
    (shorten_destination_container_name s).length
      = min s.length MAX_CONTAINER_CHARS
  ∧ (shorten_destination_container_name s).data <+: s.data
  ∧ (s.length ≤ MAX_CONTAINER_CHARS → shorten_destination_container_name s = s) := by
  have hq : shorten_destination_container_name s
      = ⟨s.data.take MAX_CONTAINER_CHARS⟩ :=
    String.take_eq s MAX_CONTAINER_CHARS
  refine ⟨?_, ?_, ?_⟩
  · rw [hq]
    show (s.data.take MAX_CONTAINER_CHARS).length
        = min s.data.length MAX_CONTAINER_CHARS
    rw [List.length_take, Nat.min_comm]
  · rw [hq]
    show s.data.take MAX_CONTAINER_CHARS <+: s.data
    exact ⟨s.data.drop MAX_CONTAINER_CHARS, List.take_append_drop _ _⟩
  · intro hle
    rw [hq]
    apply String.ext
    show s.data.take MAX_CONTAINER_CHARS = s.data
    exact List.take_of_length_le hle

/-- Witness for C9 at concrete inputs: an 81-character generated name is
cut to 63 characters and stays a character prefix, and a short name is
returned unchanged. -/
theorem shorten_spec_witness :
    (shorten_destination_container_name
        (generate_destination_container_name pathologicalName "" sampleTs)).length
      = min (generate_destination_container_name pathologicalName "" sampleTs).length
          MAX_CONTAINER_CHARS
  ∧ (shorten_destination_container_name
        (generate_destination_container_name pathologicalName "" sampleTs)).data
      <+: (generate_destination_container_name pathologicalName "" sampleTs).data
  ∧ shorten_destination_container_name "logs" = "logs" :=
  ⟨(shorten_spec _).1, (shorten_spec _).2.1,
   (shorten_spec "logs").2.2 (by decide)⟩

set_option maxRecDepth 100000 in
/-- C4: attempt 0 uses no disambiguator, and the (n+1)-th candidate is the
shortened name generated with disambiguator "-" ++ n ++ "-"; when the
existence predicate holds only for "20230301-1405-backup-logs", the
resolver returns "20230301-1405-backup--0-logs" on the first retry (two
existence checks in total). -/
theorem retry_disambiguator_sequence (name : String) (ts : DateTime) :
    candidate name ts 0
      = shorten_destination_container_name
          (generate_destination_container_name name "" ts)
  ∧ (∀ n, candidate name ts (n + 1)
      = shorten_destination_container_name
          (generate_destination_container_name name
            ("-" ++ toString n ++ "-") ts))
  ∧ resolve_destination_name (fun s => s == "20230301-1405-backup-logs")
        "logs" sampleTs 2
      = some ("20230301-1405-backup--0-logs", 2) := by
  refine ⟨candidate_zero name ts, fun n => candidate_succ name ts n, ?_⟩
  decide

/-- The singleton set of existing names on which truncation makes the
resolver exceed the |S| + 1 bound. -/
def S1 : Finset String := {collidingName}

/-- A singleton set of existing names without truncation collisions. -/
def smallS : Finset String := {"20230301-1405-backup-logs"}

/-- C3 (amended): for a finite set S, if the existence predicate is true
exactly on S and the first |S| + 1 shortened candidates are pairwise
distinct, the loop returns a name outside S within at most |S| + 1
existence checks (so it terminates with fuel |S| + 1). -/
theorem resolver_escapes_S (S : Finset String) (name : String) (ts : DateTime)
    (hinj : ∀ i, i ≤ S.card → ∀ j, j ≤ S.card →
      candidate name ts i = candidate name ts j → i = j) :
    ∃ nm k,
      resolve_destination_name (fun s => decide (s ∈ S)) name ts (S.card + 1)
        = some (nm, k)
      ∧ nm ∉ S ∧ k ≤ S.card + 1 := by
  have hex : ∃ i, i ≤ S.card ∧ candidate name ts i ∉ S := by
    by_contra hall
    push_neg at hall
    have hmem : ∀ a ∈ Finset.range (S.card + 1), candidate name ts a ∈ S :=
      fun a ha => hall a (Nat.lt_succ_iff.mp (Finset.mem_range.mp ha))
    have hinj' : Set.InjOn (candidate name ts) (Finset.range (S.card + 1)) := by
      intro i hi j hj hc
      simp only [Finset.coe_range, Set.mem_Iio, Nat.lt_succ_iff] at hi hj
      exact hinj i hi j hj hc
    have hcard := Finset.card_le_card_of_injOn (candidate name ts) hmem hinj'
    rw [Finset.card_range] at hcard
    omega
  have hex' : ∃ i, candidate name ts i ∉ S := ⟨hex.choose, hex.choose_spec.2⟩
  have hspec : candidate name ts (Nat.find hex') ∉ S := Nat.find_spec hex'
  have hle : Nat.find hex' ≤ S.card :=
    le_trans (Nat.find_min' hex' hex.choose_spec.2) hex.choose_spec.1
  have hbelow : ∀ j, j < Nat.find hex' →
      (fun s => decide (s ∈ S)) (candidate name ts j) = true :=
    fun j hj => decide_eq_true (not_not.mp (Nat.find_min hex' hj))
  have hi0 : (fun s => decide (s ∈ S)) (candidate name ts (Nat.find hex'))
      = false := decide_eq_false hspec
  have hreach := resolveLoop_reaches (fun s => decide (s ∈ S)) name ts
    (Nat.find hex') hi0 hbelow (S.card + 1) 0 (Nat.zero_le _) (by omega)
  rw [candidate_zero] at hreach
  refine ⟨candidate name ts (Nat.find hex'), Nat.find hex' + 1, ?_, hspec,
    by omega⟩
  rw [resolve_destination_name, hreach]
  rw [Nat.sub_zero]

set_option maxRecDepth 1000000 in
/-- C3 counterexample: for the source name made of twenty copies of "-0-"
and S = {collidingName}, the shortened no-disambiguator candidate and the
shortened "-0-" retry candidate are the same 63-character string, so the
loop needs 3 existence checks although |S| + 1 = 2; the claim's bound of
|S| + 1 iterations is violated. -/
theorem resolver_exceeds_claimed_bound :
    resolve_destination_name (fun s => decide (s ∈ S1)) pathologicalName
        sampleTs 4
      = some (shorten_destination_container_name
          (generate_destination_container_name pathologicalName "-1-" sampleTs),
          3)
  ∧ S1.card + 1 = 2 ∧ 2 < 3 := by
  refine ⟨by decide, by decide, by decide⟩

set_option maxRecDepth 1000000 in
/-- Witness for C3 (amended) at a concrete input: S = one existing name,
source "logs"; the resolver leaves S within |S| + 1 = 2 checks. -/
theorem resolver_escapes_S_witness :
    ∃ nm k,
      resolve_destination_name (fun s => decide (s ∈ smallS)) "logs" sampleTs
          (smallS.card + 1)
        = some (nm, k)
      ∧ nm ∉ smallS ∧ k ≤ smallS.card + 1 :=
  resolver_escapes_S smallS "logs" sampleTs (by decide)

/-! ## Concrete configurations for the orchestrator claims -/

/-- A source container with its own key. -/
def srcA : SourceContainer := ⟨"srcacct", "data", "source-secret"⟩

/-- A second source container. -/
def srcB : SourceContainer := ⟨"srcacct2", "data2", "source-secret-2"⟩

/-- The destination account with its own key. -/
def dstAcct : DestinationAccount := ⟨"dstacct", "destination-secret"⟩

/-- One-container configuration. -/
def cfgOne : Config := ⟨dstAcct, "logs", [srcA]⟩

/-- Two-container configuration. -/
def cfgTwo : Config := ⟨dstAcct, "logs", [srcA, srcB]⟩

/-- Two source containers in different accounts that share one
container name. -/
def srcDupA : SourceContainer := ⟨"acct-a", "data", "key-a"⟩

/-- Second container with the same container name as `srcDupA`. -/
def srcDupB : SourceContainer := ⟨"acct-b", "data", "key-b"⟩

/-- Configuration whose two source containers share a container name. -/
def cfgDup : Config := ⟨dstAcct, "logs", [srcDupA, srcDupB]⟩

set_option maxRecDepth 1000000 in
/-- C1 (evaluation at the failing input): in the azcopy invocation the
value after `--source-key` is the destination account's key and the value
after `--dest-key` is the source container's key — the two keys are
swapped relative to the URLs they accompany (lines 203-204 and 209-210). -/
theorem azcopy_invocation_keys_swapped :
    (runBackup false false true "/opt/backup" cfgOne [] (fun _ => false)
        (fun _ => "azcopy-output") sampleTs 2).trace.invocations
      = [["--source", "https://srcacct.blob.core.windows.net/data",
          "--source-key", "destination-secret",
          "--destination",
          "https://dstacct.blob.core.windows.net/20230301-1405-backup-data",
          "--dest-key", "source-secret",
          "--recursive", "--quiet", "--verbose"]] := by
  decide

/-- C2 (amended): a `create_container` failure is unhandled, so it aborts
the entire run at that point: the current container's copy is not invoked
and no subsequent source container is processed at all.  The first
conjunct states this for any tail of the container list (any point in the
run); the second specialises to a run that fails on its first container. -/
theorem creation_failure_aborts_run (quiet verbose : Bool)
    (scriptDir logDir : String) (cfg : Config) (remote : List String)
    (cf : String → Bool) (co : List String → String) (ts : DateTime)
    (fuel : Nat) (s1 : SourceContainer) (rest : List SourceContainer)
    (nm : String) (k : Nat)
    (hres : resolve_destination_name (fun n => remote.contains n)
        s1.container_name ts fuel = some (nm, k))
    (hcf : cf nm = true) :
    backupLoop cfg logDir cf co ts fuel (s1 :: rest) remote
      = .crashed RunTrace.nil
  ∧ (cfg.source_containers = s1 :: rest →
      runBackup quiet verbose true scriptDir cfg remote cf co ts fuel
        = .crashed RunTrace.nil) := by
  have hloop : backupLoop cfg logDir cf co ts fuel (s1 :: rest) remote
      = .crashed RunTrace.nil := by
    rw [backupLoop]
    simp only [hres]
    rw [if_pos hcf]
  have hloop' : backupLoop cfg
      (scriptDir ++ "/" ++ cfg.relative_log_path) cf co ts fuel
      (s1 :: rest) remote = .crashed RunTrace.nil := by
    rw [backupLoop]
    simp only [hres]
    rw [if_pos hcf]
  refine ⟨hloop, fun hcfg => ?_⟩
  rw [runBackup, if_pos rfl, hcfg]
  exact hloop'

set_option maxRecDepth 1000000 in
/-- C2 counterexample: with two configured source containers and container
creation failing on the first, the run crashes immediately: the second
container is never resolved, created, or copied (the trace is empty), so
it is false that subsequent containers are still processed. -/
theorem second_container_not_attempted :
    runBackup false false true "/opt/backup" cfgTwo [] (fun _ => true)
        (fun _ => "azcopy-output") sampleTs 2
      = .crashed RunTrace.nil
  ∧ cfgTwo.source_containers.length = 2
  ∧ (runBackup false false true "/opt/backup" cfgTwo [] (fun _ => true)
        (fun _ => "azcopy-output") sampleTs 2).trace.invocations = []
  ∧ (runBackup false false true "/opt/backup" cfgTwo [] (fun _ => true)
        (fun _ => "azcopy-output") sampleTs 2).trace.created = [] := by
  refine ⟨by decide, by decide, by decide, by decide⟩

set_option maxRecDepth 1000000 in
/-- Witness for C2 (amended) at a concrete input: creation fails on the
first of two containers and the run crashes with an empty trace. -/
theorem creation_failure_aborts_run_witness :
    backupLoop cfgTwo ("/opt/backup" ++ "/" ++ cfgTwo.relative_log_path)
        (fun _ => true) (fun _ => "azcopy-output") sampleTs 2
        (srcA :: [srcB]) []
      = .crashed RunTrace.nil
  ∧ (cfgTwo.source_containers = srcA :: [srcB] →
      runBackup false false true "/opt/backup" cfgTwo [] (fun _ => true)
        (fun _ => "azcopy-output") sampleTs 2
        = .crashed RunTrace.nil) :=
  creation_failure_aborts_run false false "/opt/backup"
    ("/opt/backup" ++ "/" ++ cfgTwo.relative_log_path) cfgTwo []
    (fun _ => true) (fun _ => "azcopy-output") sampleTs 2 srcA [srcB]
    "20230301-1405-backup-data" 1 (by decide) rfl

/-- C5: in a successful run the log paths, in configured order, are exactly
`<log_directory>/<untruncated no-disambiguator name>-log.txt` — an
expression mentioning neither the remote existence state nor any
disambiguator nor the shortening function — so each source container is
assigned exactly one log path, independent of resolution. -/
theorem log_path_per_container (quiet verbose : Bool) (scriptDir : String)
    (cfg : Config) (remote : List String) (cf : String → Bool)
    (co : List String → String) (ts : DateTime) (fuel : Nat) (t : RunTrace)
    (hrun : runBackup quiet verbose true scriptDir cfg remote cf co ts fuel
      = .ok t) :
    t.logWrites.map Prod.fst
      = cfg.source_containers.map (fun sc =>
          scriptDir ++ "/" ++ cfg.relative_log_path ++ "/"
            ++ generate_destination_container_name sc.container_name "" ts
            ++ "-log.txt")
  ∧ t.logWrites.length = cfg.source_containers.length := by
  rw [runBackup, if_pos rfl] at hrun
  have hmap := backupLoop_ok_logWrites cfg
    (scriptDir ++ "/" ++ cfg.relative_log_path) cf co ts fuel
    cfg.source_containers remote t hrun
  constructor
  · rw [hmap]; rfl
  · have hlen := congrArg List.length hmap
    simpa using hlen

set_option maxRecDepth 1000000 in
/-- Witness for C5 at a concrete input: the single log path of a
one-container run. -/
theorem log_path_per_container_witness :
    (runBackup false false true "/opt/backup" cfgOne [] (fun _ => false)
        (fun _ => "azcopy-output") sampleTs 2).trace.logWrites.map Prod.fst
      = cfgOne.source_containers.map (fun sc =>
          "/opt/backup" ++ "/" ++ cfgOne.relative_log_path ++ "/"
            ++ generate_destination_container_name sc.container_name ""
                sampleTs
            ++ "-log.txt")
  ∧ (runBackup false false true "/opt/backup" cfgOne [] (fun _ => false)
        (fun _ => "azcopy-output") sampleTs 2).trace.logWrites.length
      = cfgOne.source_containers.length :=
  log_path_per_container false false "/opt/backup" cfgOne [] (fun _ => false)
    (fun _ => "azcopy-output") sampleTs 2 _ (by decide)

/-- C6: the run timestamp is a single value captured once (the Python
default argument is evaluated once, at module load) and threaded through
every name generation; consequently every resolution candidate of every
source container, and every container name a run creates, starts with the
same formatted timestamp, provided that rendering fits within the name cap
(always true for real dates, whose rendering has 13 characters). -/
theorem timestamp_prefix_shared (ts : DateTime)
    (hlen : (strftime_YmdHM ts).length ≤ MAX_CONTAINER_CHARS) :
    (∀ name k, (strftime_YmdHM ts).data <+: (candidate name ts k).data)
  ∧ (∀ (quiet verbose az : Bool) (scriptDir : String) (cfg : Config)
        (remote : List String) (cf : String → Bool)
        (co : List String → String) (fuel : Nat) (n : String),
      n ∈ ((runBackup quiet verbose az scriptDir cfg remote cf co ts
          fuel).trace).created →
      (strftime_YmdHM ts).data <+: n.data) := by
  refine ⟨fun name k => strftime_prefix_candidate ts name hlen k, ?_⟩
  intro quiet verbose az scriptDir cfg remote cf co fuel n hn
  cases az with
  | false =>
    rw [runBackup] at hn
    simp [RunResult.trace] at hn
  | true =>
    rw [runBackup, if_pos rfl] at hn
    obtain ⟨sc, hsc, i, rfl⟩ := backupLoop_created cfg
      (scriptDir ++ "/" ++ cfg.relative_log_path) cf co ts fuel
      cfg.source_containers remote n hn
    exact strftime_prefix_candidate ts sc.container_name hlen i

/-- Witness for C6 at a concrete input: the fourth candidate for source
"logs" starts with the formatted sample timestamp. -/
theorem timestamp_prefix_shared_witness :
    (strftime_YmdHM sampleTs).data <+: (candidate "logs" sampleTs 3).data :=
  (timestamp_prefix_shared sampleTs (by decide)).1 "logs" 3

/-- C7 (amended): when the copy tool is missing the run aborts with exit
status 1, creating no container and printing the abort messages unless
`--quiet` was given; the exit code never depends on the copy subprocess's
output or exit status (which are never inspected); a completed run exits 0;
and a run aborted by an unhandled creation error also exits 1. -/
theorem exit_code_behaviour (quiet verbose : Bool) (scriptDir : String)
    (cfg : Config) (remote : List String) (cf : String → Bool)
    (co co' : List String → String) (ts : DateTime) (fuel : Nat) :
    (runBackup quiet verbose false scriptDir cfg remote cf co ts fuel
        = .abortedNoAzcopy
            ⟨if quiet then [] else ["azcopy not found", "Aborting"],
             [], [], []⟩)
  ∧ (runBackup quiet verbose false scriptDir cfg remote cf co ts
        fuel).exitCode = some 1
  ∧ (∀ az, (runBackup quiet verbose az scriptDir cfg remote cf co ts
        fuel).exitCode
      = (runBackup quiet verbose az scriptDir cfg remote cf co' ts
        fuel).exitCode)
  ∧ (∀ t, runBackup quiet verbose true scriptDir cfg remote cf co ts fuel
        = .ok t →
      (runBackup quiet verbose true scriptDir cfg remote cf co ts
        fuel).exitCode = some 0)
  ∧ (∀ t, runBackup quiet verbose true scriptDir cfg remote cf co ts fuel
        = .crashed t →
      (runBackup quiet verbose true scriptDir cfg remote cf co ts
        fuel).exitCode = some 1) := by
  refine ⟨rfl, rfl, ?_, ?_, ?_⟩
  · intro az
    cases az with
    | false => rfl
    | true =>
      rw [runBackup, if_pos rfl, runBackup, if_pos rfl]
      exact backupLoop_exitCode_ext cfg
        (scriptDir ++ "/" ++ cfg.relative_log_path) cf co co' ts fuel
        cfg.source_containers remote
  · intro t h
    rw [h]
    rfl
  · intro t h
    rw [h]
    rfl

/-- Witness for C7 (amended) at a concrete input: with `--quiet` set and
the tool missing, the run aborts with empty output and an empty trace. -/
theorem exit_code_behaviour_witness :
    runBackup true false false "/opt/backup" cfgOne [] (fun _ => false)
        (fun _ => "azcopy-output") sampleTs 2
      = .abortedNoAzcopy
          ⟨if true then [] else ["azcopy not found", "Aborting"],
           [], [], []⟩ :=
  (exit_code_behaviour true false "/opt/backup" cfgOne [] (fun _ => false)
    (fun _ => "azcopy-output") (fun _ => "other-output") sampleTs 2).1

set_option maxRecDepth 1000000 in
/-- C7 counterexample: (i) with azcopy present but container creation
failing, the process exits with status 1 even though the copy tool was
found — so it is false that status 1 occurs exactly when the tool is
missing and that every other case exits 0; (ii) with `--quiet` and the
tool missing, no abort message is printed. -/
theorem exit_one_despite_azcopy_present :
    (runBackup false false true "/opt/backup" cfgOne [] (fun _ => true)
        (fun _ => "azcopy-output") sampleTs 2).exitCode = some 1
  ∧ (runBackup true false false "/opt/backup" cfgOne [] (fun _ => false)
        (fun _ => "azcopy-output") sampleTs 2).trace.printed = [] := by
  refine ⟨by decide, by decide⟩

/-- C10: the log path depends only on the run timestamp and the source's
container name — not on its storage account, key, or any disambiguator —
so two configured source containers with the same container name get the
same path, and since each log is opened in overwrite mode, the final
contents at that path are the second backup's output. -/
theorem duplicate_container_name_shares_log (quiet verbose : Bool)
    (scriptDir : String) (cfg : Config) (remote : List String)
    (cf : String → Bool) (co : List String → String) (ts : DateTime)
    (fuel : Nat) (a b : SourceContainer) (t : RunTrace)
    (hcfg : cfg.source_containers = [a, b])
    (hname : a.container_name = b.container_name)
    (hrun : runBackup quiet verbose true scriptDir cfg remote cf co ts fuel
      = .ok t) :
    ∃ c1 c2,
      t.logWrites
        = [(logPath (scriptDir ++ "/" ++ cfg.relative_log_path) ts
              a.container_name, c1),
           (logPath (scriptDir ++ "/" ++ cfg.relative_log_path) ts
              a.container_name, c2)]
      ∧ finalLog t.logWrites
          (logPath (scriptDir ++ "/" ++ cfg.relative_log_path) ts
            a.container_name)
        = some c2 := by
  rw [runBackup, if_pos rfl, hcfg] at hrun
  obtain ⟨nm1, k1, t1, hres1, hcf1, hrec1, rfl⟩ := backupLoop_cons_ok hrun
  obtain ⟨nm2, k2, t2, hres2, hcf2, hrec2, rfl⟩ := backupLoop_cons_ok hrec1
  rw [backupLoop] at hrec2
  injection hrec2 with h2
  subst h2
  refine ⟨co (azcopy_args cfg a nm1), co (azcopy_args cfg b nm2), ?_, ?_⟩
  · simp [RunTrace.append, RunTrace.nil, hname]
  · simp [RunTrace.append, RunTrace.nil, hname, finalLog, List.filter]

set_option maxRecDepth 1000000 in
/-- Witness for C10 at a concrete input: two source containers in
different accounts share the container name "data"; both log writes of the
run target one path and the later write is what the file finally holds. -/
theorem duplicate_container_name_shares_log_witness :
    ∃ c1 c2,
      (runBackup false false true "/opt/backup" cfgDup [] (fun _ => false)
          (fun args => String.join args) sampleTs 2).trace.logWrites
        = [(logPath ("/opt/backup" ++ "/" ++ cfgDup.relative_log_path)
              sampleTs srcDupA.container_name, c1),
           (logPath ("/opt/backup" ++ "/" ++ cfgDup.relative_log_path)
              sampleTs srcDupA.container_name, c2)]
      ∧ finalLog
          (runBackup false false true "/opt/backup" cfgDup [] (fun _ => false)
            (fun args => String.join args) sampleTs 2).trace.logWrites
          (logPath ("/opt/backup" ++ "/" ++ cfgDup.relative_log_path)
            sampleTs srcDupA.container_name)
        = some c2 :=
  duplicate_container_name_shares_log false false "/opt/backup" cfgDup []
    (fun _ => false) (fun args => String.join args) sampleTs 2
    srcDupA srcDupB _ rfl rfl (by decide)

end ContainerBackup
